import Mathlib

/-!
Verification of the labscript_devices registry module (src/unnamed single
source file, the package `__init__`): a plugin-discovery and class-lookup
registry.  Python dictionaries are modelled as ordered association lists
with overwrite-in-place insertion, Python class objects as records, and
raised exceptions as `Except` errors.  Module importing is modelled by a
`World` record giving the importable modules, their attributes and the
registration side effects their code performs when run.
-/

namespace LabscriptDevices

/-- Python dict with string keys: an ordered association list.  Insertion
overwrites in place when the key is present and appends otherwise, and
lookup returns the first (unique) binding, matching CPython semantics. -/
abbrev Dict (α : Type) := List (String × α)

/-- Lookup, the model of `d[k]` / `d.get(k)`. -/
def dictGet {α : Type} : Dict α → String → Option α
  | [], _ => none
  | (k', v) :: t, k => if k' == k then some v else dictGet t k

/-- Membership test, the model of `k in d`. -/
def dictContains {α : Type} : Dict α → String → Bool
  | [], _ => false
  | (k', _) :: t, k => k' == k || dictContains t k

/-- Assignment `d[k] = v`: overwrite in place, else append. -/
def dictInsert {α : Type} : Dict α → String → α → Dict α
  | [], k, v => [(k, v)]
  | (k', v') :: t, k, v =>
      if k' == k then (k, v) :: t else (k', v') :: dictInsert t k v

/-- The key list of a dict, in insertion order. -/
def dictKeys {α : Type} (d : Dict α) : List String := d.map Prod.fst

/-- Truthiness test `not d` used by the lookup facade. -/
def dictIsEmpty {α : Type} (d : Dict α) : Bool := d.isEmpty

/-- A Python class object, as far as this module observes it: its
`__module__` string, its own name (distinguishing distinct classes), and
the `labscript_device_class_name` attribute stamped by `ClassRegister`
(absent before registration). -/
structure PyClass where
  module : String
  cls_name : String
  labscript_device_class_name : Option String := none
deriving DecidableEq

/-- The exception classes this module can raise, with their message. -/
inductive PyError where
  | importError (msg : String)
  | attributeError (msg : String)
  | valueError (msg : String)
  | runtimeError (msg : String)
deriving DecidableEq

/-- An importable Python module as the registry machinery observes it:
its attributes (for `getattr`), and the classes its body decorates with
`@BLACS_tab` respectively `@runviewer_parser` (the registration side
effects of running its code). -/
structure PyModule where
  attrs : Dict PyClass
  tab_decorated : List PyClass
  parser_decorated : List PyClass
deriving DecidableEq

/-- The import environment: which absolute module names are importable
(and what they contain), the `__main__.__file__` value when one exists,
and the aggregate sequence of `register_classes(...)` calls performed by
all `register_classes.py` files found by the directory walk of
`populate_registry` (each triple is device name, BLACS tab path,
runviewer parser path). -/
structure World where
  modules : Dict PyModule
  main_file : Option String
  register_calls : List (String × Option String × Option String)
deriving DecidableEq

/-- Model of Python `str.split(sep)` for a one-character separator on a
character list: split at every occurrence, keeping empty pieces, as
CPython does for an explicit separator.  The result is never empty. -/
def split_char (sep : Char) : List Char → List (List Char)
  | [] => [[]]
  | c :: cs =>
      match split_char sep cs with
      | [] => [[]]
      | g :: gs => if c == sep then [] :: g :: gs else (c :: g) :: gs

/-- Python `s.split(sep)` for a one-character separator. -/
def py_split (s : String) (sep : Char) : List String :=
  (split_char sep s.data).map String.mk

/-- The message raised when `None.split` is evaluated, i.e. when a
registered class path of `None` reaches `_import_class_by_fullname`. -/
def none_split_msg : String :=
  "NoneType object has no attribute split"

/-- Model of `_import_class_by_fullname(fullname)`: split at the last
dot, load the module, return the attribute.  The argument type is
`Option String` because the registry values handed to it by the lookup
facade may be `None` (the default of `register_classes`); on `None` the
very first operation `fullname.split(.)` raises AttributeError, which the
`none` branch models. -/
def _import_class_by_fullname (w : World) (fullname : Option String) :
    Except PyError PyClass :=
  match fullname with
  | none => .error (.attributeError none_split_msg)
  | some fn =>
    let split := py_split fn '.'
    let module_name := String.intercalate "." split.dropLast
    let class_name := split.getLastD ""
    match dictGet w.modules module_name with
    | none => .error (.importError module_name)
    | some module =>
      match dictGet module.attrs class_name with
      | some c => .ok c
      | none => .error (.attributeError class_name)

/-- A `ClassRegister` instance: its dict of registered classes and the
instance name used in diagnostics. -/
structure ClassRegister where
  registered_classes : Dict PyClass
  instancename : String
deriving DecidableEq

/-- Model of `os.path.basename` for the separator-style paths this module
sees: the part after the last path separator. -/
def os_path_basename (p : String) : String :=
  (py_split p '/').getLastD ""

/-- Model of `os.path.splitext(p)[0]` for a plain file name: drop the
extension at the last dot, except that leading dots of the name do not
begin an extension (so ".bashrc" keeps its dot, as in CPython). -/
def splitext_root (p : String) : String :=
  let cs := p.data
  let dots := (List.range cs.length).filter fun i => cs.getD i ' ' == '.'
  match dots.getLast? with
  | none => p
  | some d =>
      if (List.range d).any (fun i => cs.getD i ' ' != '.') then
        String.mk (cs.take d)
      else p

/-- The message of the RuntimeError raised by `ClassRegister.__call__`
when the defining module is `__main__` and `__main__.__file__` does not
exist (message abridged; the source text begins the same way but
continues with testing advice). -/
def main_file_err_msg : String :=
  "Cant figure out what the file or module this class is being defined in."

/-- The device name `ClassRegister.__call__` computes from a class:
the last dotted component of `cls.__module__`. -/
def module_device_name (cls : PyClass) : String :=
  (py_split cls.module '.').getLastD ""

/-- The attribute assignment `cls.labscript_device_class_name = n`:
the class object with the back-reference attribute set. -/
def stamp (cls : PyClass) (n : String) : PyClass :=
  { cls with labscript_device_class_name := some n }

/-- Model of `ClassRegister.__call__(cls)`: stamp the class with the last
dotted component of its defining module name (falling back to the
basename of `__main__.__file__`, without extension, when that component
is `__main__`), store it in `registered_classes` under that name, and
return it.  The stamped class and the updated register are returned;
the RuntimeError of the unavailable-`__file__` case is the error
branch. -/
def ClassRegister.call (w : World) (r : ClassRegister) (cls : PyClass) :
    Except PyError (PyClass × ClassRegister) :=
  let n0 := module_device_name cls
  if n0 == "__main__" then
    match w.main_file with
    | none => .error (.runtimeError main_file_err_msg)
    | some f =>
        let n := splitext_root (os_path_basename f)
        let cls' := stamp cls n
        .ok (cls', { r with registered_classes := dictInsert r.registered_classes n cls' })
  else
    let cls' := stamp cls n0
    .ok (cls', { r with registered_classes := dictInsert r.registered_classes n0 cls' })

/-- Running the class-decoration side effects of an imported module body
on a register: each class the module decorates with this register's
decorator is passed through `ClassRegister.call` in order. -/
def run_module_decorations (w : World) (pick : PyModule → List PyClass)
    (module : PyModule) (r : ClassRegister) : Except PyError ClassRegister :=
  (pick module).foldlM (fun acc c => (ClassRegister.call w acc c).map Prod.snd) r

/-- The ValueError message of `ClassRegister.__getitem__` when the
module loaded fine but no class was registered under the name. -/
def no_class_msg (instancename name : String) : String :=
  "No class decorated as a " ++ instancename ++ " found in module labscript_devices."
    ++ name ++ ", Did you forget to decorate the class definition with @"
    ++ instancename ++ "?"

/-- Model of `ClassRegister.__getitem__(name)`: import
`labscript_devices.<name>` (running its decoration side effects, selected
by `pick` for this register), then look the name up in
`registered_classes`.  A failed import re-raises ImportError (the stderr
diagnostic is elided); a missing registration raises the ValueError of
`no_class_msg`.  Returns the result together with the register state
after the import ran. -/
def ClassRegister.getitem (w : World) (pick : PyModule → List PyClass)
    (r : ClassRegister) (name : String) : Except PyError PyClass × ClassRegister :=
  match dictGet w.modules ("labscript_devices." ++ name) with
  | none => (.error (.importError ("labscript_devices." ++ name)), r)
  | some module =>
    match run_module_decorations w pick module r with
    | .error e => (.error e, r)
    | .ok r' =>
      match dictGet r'.registered_classes name with
      | some c => (.ok c, r')
      | none => (.error (.valueError (no_class_msg r.instancename name)), r')

/-- The global mutable state of the module: the two deferred registries
(device name to optional fully-qualified path), the two decorator
register instances (named `BLACS_tab` and `runviewer_parser` in the
source), and a ghost counter of how many times the directory walk of
`populate_registry` has been invoked. -/
structure RegState where
  BLACS_tab_registry : Dict (Option String)
  runviewer_parser_registry : Dict (Option String)
  BLACS_tab_register : ClassRegister
  runviewer_parser_register : ClassRegister
  walk_count : Nat
deriving DecidableEq

/-- The state at module load: empty registries, the two freshly
constructed `ClassRegister` instances, no walk performed. -/
def initial_state : RegState :=
  { BLACS_tab_registry := []
    runviewer_parser_registry := []
    BLACS_tab_register := { registered_classes := [], instancename := "BLACS_tab" }
    runviewer_parser_register := { registered_classes := [], instancename := "runviewer_parser" }
    walk_count := 0 }

/-- Model of `register_classes(labscript_device_name, BLACS_tab,
runviewer_parser)`: assign both dict entries unconditionally (the two
path arguments default to `None` in the source and are stored as
given). -/
def register_classes (st : RegState) (labscript_device_name : String)
    (BLACS_tab_path : Option String) (runviewer_parser_path : Option String) : RegState :=
  { st with
    BLACS_tab_registry := dictInsert st.BLACS_tab_registry labscript_device_name BLACS_tab_path
    runviewer_parser_registry :=
      dictInsert st.runviewer_parser_registry labscript_device_name runviewer_parser_path }

/-- Folding a sequence of `register_classes` calls over the state, in
order.  Used both to model the aggregate effect of the imports done by
`populate_registry` and to state the invariant over call sequences. -/
def apply_register_calls (calls : List (String × Option String × Option String))
    (st : RegState) : RegState :=
  calls.foldl (fun s c => register_classes s c.1 c.2.1 c.2.2) st

/-- Model of `populate_registry()`: walk the devices directory, import
every `register_classes.py` found, which runs their `register_classes`
calls (`w.register_calls`, in walk order).  The ghost `walk_count` is
incremented to record that the walk ran. -/
def populate_registry (w : World) (st : RegState) : RegState :=
  let st' := apply_register_calls w.register_calls st
  { st' with walk_count := st'.walk_count + 1 }

/-- Model of `get_BLACS_tab(name)`: populate the registries if the BLACS
tab registry is empty, then resolve a present deferred entry via
`_import_class_by_fullname`, else fall back on the `BLACS_tab` decorator
register.  Returns the result together with the updated global state. -/
def get_BLACS_tab (w : World) (st : RegState) (name : String) :
    Except PyError PyClass × RegState :=
  let st1 := if dictIsEmpty st.BLACS_tab_registry then populate_registry w st else st
  match dictGet st1.BLACS_tab_registry name with
  | some path => (_import_class_by_fullname w path, st1)
  | none =>
      let pr := ClassRegister.getitem w PyModule.tab_decorated st1.BLACS_tab_register name
      (pr.1, { st1 with BLACS_tab_register := pr.2 })

/-- Model of `get_runviewer_parser(name)` (renamed here because of a
naming restriction of this development): populate the registries if the
runviewer parser registry is empty, then resolve a present deferred
entry via `_import_class_by_fullname`, else fall back on the
`runviewer_parser` decorator register. -/
def get_runviewer_parser_class (w : World) (st : RegState) (name : String) :
    Except PyError PyClass × RegState :=
  let st1 := if dictIsEmpty st.runviewer_parser_registry then populate_registry w st else st
  match dictGet st1.runviewer_parser_registry name with
  | some path => (_import_class_by_fullname w path, st1)
  | none =>
      let pr := ClassRegister.getitem w PyModule.parser_decorated st1.runviewer_parser_register name
      (pr.1, { st1 with runviewer_parser_register := pr.2 })

/-- The warning message of a deprecated decorator named `name`. -/
def deprecated_msg (name : String) : String :=
  "@" ++ name ++ " decorator is unnecessary and can be removed"

/-- Model of `deprecated_decorator(name)`: the returned `null_decorator`
takes the global state and a class, returns the class unchanged, the
state unchanged (its body never touches any registry), and the single
deprecation warning it emits. -/
def deprecated_decorator (name : String) :
    RegState → PyClass → PyClass × RegState × List String :=
  fun st cls => (cls, st, [deprecated_msg name])

/-- The deprecated `labscript_device` decorator. -/
def labscript_device : RegState → PyClass → PyClass × RegState × List String :=
  deprecated_decorator "labscript_device"

/-- The deprecated `BLACS_worker` decorator. -/
def BLACS_worker : RegState → PyClass → PyClass × RegState × List String :=
  deprecated_decorator "BLACS_worker"

/-! Dictionary lemmas. -/

theorem dictGet_insert_self {α : Type} (d : Dict α) (k : String) (v : α) :
    dictGet (dictInsert d k v) k = some v := by
  induction d with
  | nil => simp [dictInsert, dictGet]
  | cons p t ih =>
      obtain ⟨k', v'⟩ := p
      by_cases h : k' = k
      · simp [dictInsert, dictGet, h]
      · simp [dictInsert, dictGet, h, ih]

theorem dictGet_some_not_isEmpty {α : Type} {d : Dict α} {k : String} {v : α}
    (h : dictGet d k = some v) : dictIsEmpty d = false := by
  cases d with
  | nil => simp [dictGet] at h
  | cons p t => rfl

theorem dictKeys_cons {α : Type} (k : String) (v : α) (t : Dict α) :
    dictKeys ((k, v) :: t) = k :: dictKeys t := rfl

theorem dictContains_eq_mem {α : Type} (d : Dict α) (k : String) :
    dictContains d k = decide (k ∈ dictKeys d) := by
  induction d with
  | nil => simp [dictContains, dictKeys]
  | cons p t ih =>
      obtain ⟨k', v'⟩ := p
      by_cases h : k' = k
      · simp [dictContains, dictKeys_cons, h]
      · simp [dictContains, dictKeys_cons, h, Ne.symm h, ih]

theorem dictKeys_insert {α : Type} (d : Dict α) (k : String) (v : α) :
    dictKeys (dictInsert d k v) =
      if dictContains d k then dictKeys d else dictKeys d ++ [k] := by
  induction d with
  | nil => simp [dictInsert, dictKeys, dictContains]
  | cons p t ih =>
      obtain ⟨k', v'⟩ := p
      by_cases h : k' = k
      · simp [dictInsert, dictContains, dictKeys_cons, h]
      · by_cases h2 : dictContains t k = true <;>
          simp [dictInsert, dictContains, dictKeys_cons, h, h2, ih]

theorem dictIsEmpty_eq_keys {α : Type} (d : Dict α) :
    dictIsEmpty d = (dictKeys d).isEmpty := by
  cases d <;> rfl

/-! State lemmas. -/

theorem apply_register_calls_walk_count
    (calls : List (String × Option String × Option String)) (st : RegState) :
    (apply_register_calls calls st).walk_count = st.walk_count := by
  induction calls generalizing st with
  | nil => rfl
  | cons c t ih => exact (ih (register_classes st c.1 c.2.1 c.2.2)).trans rfl

theorem populate_registry_walk_count (w : World) (st : RegState) :
    (populate_registry w st).walk_count = st.walk_count + 1 := by
  simp [populate_registry, apply_register_calls_walk_count]

/-! Shared concrete objects used by counterexamples and witnesses. -/

/-- World with no importable modules, no main file and no
register_classes files found by the walk. -/
def empty_world : World := { modules := [], main_file := none, register_calls := [] }

/-- State after `register_classes("FooDevice", "labscript_devices.foo.FooTab", None)`:
a tab path is recorded and the parser path is explicitly `None`. -/
def foo_state : RegState :=
  register_classes initial_state "FooDevice" (some "labscript_devices.foo.FooTab") none

/-- State after `register_classes("FooDevice", None, None)`. -/
def foo_state_nones : RegState :=
  register_classes initial_state "FooDevice" none none

/-- A tab class whose defining module is `labscript_devices.foo`. -/
def foo_tab_cls : PyClass := { module := "labscript_devices.foo", cls_name := "FooTab" }

/-- The importable module `labscript_devices.foo`: exports `FooTab`,
performs no decorations. -/
def foo_module : PyModule :=
  { attrs := [("FooTab", foo_tab_cls)], tab_decorated := [], parser_decorated := [] }

/-- An importable module with no attributes and no decorations. -/
def empty_module : PyModule :=
  { attrs := [], tab_decorated := [], parser_decorated := [] }

/-- A world in which `labscript_devices.foo` and
`labscript_devices.EmptyDevice` are importable. -/
def foo_world : World :=
  { modules := [("labscript_devices.foo", foo_module),
                ("labscript_devices.EmptyDevice", empty_module)]
    main_file := none
    register_calls := [] }

/-- State with `FooDevice` registered under both mechanisms of interest:
both deferred paths point at `labscript_devices.foo.FooTab`. -/
def foo_both_state : RegState :=
  register_classes initial_state "FooDevice"
    (some "labscript_devices.foo.FooTab") (some "labscript_devices.foo.FooTab")

/-- A class defined while its module runs as `__main__`. -/
def main_cls : PyClass := { module := "__main__", cls_name := "MainTab" }

/-- A world whose `__main__` module was executed from the file
`/home/user/FooDevice.py`. -/
def main_file_world : World :=
  { modules := [], main_file := some "/home/user/FooDevice.py", register_calls := [] }

/-! Claim theorems. -/

/-- C1 counterexample: with `FooDevice` registered via `register_classes`
with a null (`None`) parser class path, `get_runviewer_parser` does not
return `None`: it raises, because the recorded `None` is passed to
`_import_class_by_fullname`, whose `None.split` call raises
AttributeError.  This refutes the claim that the call returns `None` and
does not raise. -/
theorem c1_counterexample :
    (get_runviewer_parser_class empty_world foo_state "FooDevice").1
      = Except.error (PyError.attributeError none_split_msg) := rfl

/-- C1 (amended): for every device name registered via `register_classes`
with a null parser class path, `get_runviewer_parser` raises an
AttributeError-class failure (the recorded `None` reaches the name
resolver, whose split call fails on it) rather than returning `None`;
symmetrically `get_BLACS_tab` raises for a null panel class path. -/
theorem c1_null_path_raises (w : World) (st : RegState) (name : String) :
    (dictGet st.runviewer_parser_registry name = some none →
      (get_runviewer_parser_class w st name).1
        = Except.error (PyError.attributeError none_split_msg)) ∧
    (dictGet st.BLACS_tab_registry name = some none →
      (get_BLACS_tab w st name).1
        = Except.error (PyError.attributeError none_split_msg)) := by
  constructor
  · intro h
    have hne : dictIsEmpty st.runviewer_parser_registry = false :=
      dictGet_some_not_isEmpty h
    simp [get_runviewer_parser_class, hne, h, _import_class_by_fullname]
  · intro h
    have hne : dictIsEmpty st.BLACS_tab_registry = false :=
      dictGet_some_not_isEmpty h
    simp [get_BLACS_tab, hne, h, _import_class_by_fullname]

/-- Witness for c1_null_path_raises: the device `FooDevice` registered
with both paths null makes both lookups raise the AttributeError. -/
theorem c1_null_path_raises_witness :
    (get_runviewer_parser_class empty_world foo_state_nones "FooDevice").1
      = Except.error (PyError.attributeError none_split_msg) ∧
    (get_BLACS_tab empty_world foo_state_nones "FooDevice").1
      = Except.error (PyError.attributeError none_split_msg) :=
  ⟨(c1_null_path_raises empty_world foo_state_nones "FooDevice").1 rfl,
   (c1_null_path_raises empty_world foo_state_nones "FooDevice").2 rfl⟩

/-- C2: a device name present in the deferred registry is always resolved
through `_import_class_by_fullname` from the recorded path, with the
decorator register never consulted (the result does not depend on it);
only a name absent from the deferred registry falls back to the
decorator register lookup.  Stated for both lookup functions. -/
theorem c2_deferred_precedence (w : World) (st : RegState) (name : String) :
    (∀ path, dictGet st.BLACS_tab_registry name = some path →
        (get_BLACS_tab w st name).1 = _import_class_by_fullname w path) ∧
    (dictIsEmpty st.BLACS_tab_registry = false →
      dictGet st.BLACS_tab_registry name = none →
        (get_BLACS_tab w st name).1
          = (ClassRegister.getitem w PyModule.tab_decorated st.BLACS_tab_register name).1) ∧
    (∀ path, dictGet st.runviewer_parser_registry name = some path →
        (get_runviewer_parser_class w st name).1 = _import_class_by_fullname w path) ∧
    (dictIsEmpty st.runviewer_parser_registry = false →
      dictGet st.runviewer_parser_registry name = none →
        (get_runviewer_parser_class w st name).1
          = (ClassRegister.getitem w PyModule.parser_decorated
              st.runviewer_parser_register name).1) := by
  refine ⟨fun path h => ?_, fun hne h => ?_, fun path h => ?_, fun hne h => ?_⟩
  · have hne : dictIsEmpty st.BLACS_tab_registry = false := dictGet_some_not_isEmpty h
    simp [get_BLACS_tab, hne, h]
  · simp [get_BLACS_tab, hne, h]
  · have hne : dictIsEmpty st.runviewer_parser_registry = false := dictGet_some_not_isEmpty h
    simp [get_runviewer_parser_class, hne, h]
  · simp [get_runviewer_parser_class, hne, h]

/-- Witness for c2_deferred_precedence: with `FooDevice` registered under
both deferred mappings, both lookups resolve the recorded path, and the
unregistered `BarDevice` falls back to the decorator registers. -/
theorem c2_deferred_precedence_witness :
    (get_BLACS_tab foo_world foo_both_state "FooDevice").1
      = _import_class_by_fullname foo_world (some "labscript_devices.foo.FooTab") ∧
    (get_runviewer_parser_class foo_world foo_both_state "FooDevice").1
      = _import_class_by_fullname foo_world (some "labscript_devices.foo.FooTab") ∧
    (get_BLACS_tab foo_world foo_both_state "BarDevice").1
      = (ClassRegister.getitem foo_world PyModule.tab_decorated
          foo_both_state.BLACS_tab_register "BarDevice").1 ∧
    (get_runviewer_parser_class foo_world foo_both_state "BarDevice").1
      = (ClassRegister.getitem foo_world PyModule.parser_decorated
          foo_both_state.runviewer_parser_register "BarDevice").1 :=
  ⟨(c2_deferred_precedence foo_world foo_both_state "FooDevice").1 _ rfl,
   (c2_deferred_precedence foo_world foo_both_state "FooDevice").2.2.1 _ rfl,
   (c2_deferred_precedence foo_world foo_both_state "BarDevice").2.1 rfl rfl,
   (c2_deferred_precedence foo_world foo_both_state "BarDevice").2.2.2 rfl rfl⟩

/-- C3: `register_classes` updates both mappings at the given device name
with the supplied values, including `None`, overwriting unconditionally;
no validation of the path strings occurs (arbitrary values are stored as
given), and a second registration of the same name replaces the first. -/
theorem c3_register_classes_overwrites (st : RegState) (n : String)
    (t p t' p' : Option String) :
    register_classes st n t p
      = { st with
            BLACS_tab_registry := dictInsert st.BLACS_tab_registry n t
            runviewer_parser_registry := dictInsert st.runviewer_parser_registry n p } ∧
    dictGet (register_classes st n t p).BLACS_tab_registry n = some t ∧
    dictGet (register_classes st n t p).runviewer_parser_registry n = some p ∧
    dictGet (register_classes (register_classes st n t p) n t' p').BLACS_tab_registry n
      = some t' ∧
    dictGet (register_classes (register_classes st n t p) n t' p').runviewer_parser_registry n
      = some p' :=
  ⟨rfl, dictGet_insert_self _ n t, dictGet_insert_self _ n p,
   dictGet_insert_self _ n t', dictGet_insert_self _ n p'⟩

/-- C4: the name resolver splits a fully-qualified name (a string with at
least one dot) at the last dot into a module path and an attribute
name, loads the module and returns that attribute; a non-importable
module path yields an ImportError-class failure and a missing attribute
an AttributeError-class failure. -/
theorem c4_name_resolver (w : World) (fn : String)
    (_hdot : 2 ≤ (py_split fn '.').length) :
    (dictGet w.modules (String.intercalate "." (py_split fn '.').dropLast) = none →
       _import_class_by_fullname w (some fn)
         = Except.error (PyError.importError
             (String.intercalate "." (py_split fn '.').dropLast))) ∧
    (∀ m, dictGet w.modules (String.intercalate "." (py_split fn '.').dropLast) = some m →
       dictGet m.attrs ((py_split fn '.').getLastD "") = none →
         _import_class_by_fullname w (some fn)
           = Except.error (PyError.attributeError ((py_split fn '.').getLastD ""))) ∧
    (∀ m c, dictGet w.modules (String.intercalate "." (py_split fn '.').dropLast) = some m →
       dictGet m.attrs ((py_split fn '.').getLastD "") = some c →
         _import_class_by_fullname w (some fn) = Except.ok c) := by
  refine ⟨fun h => ?_, fun m hm ha => ?_, fun m c hm ha => ?_⟩
  · simp only [_import_class_by_fullname, h]
  · simp only [_import_class_by_fullname, hm, ha]
  · simp only [_import_class_by_fullname, hm, ha]

/-- Witness for c4_name_resolver: in `foo_world` the path
`labscript_devices.foo.FooTab` resolves to the class, a bad module path
raises ImportError, a bad attribute raises AttributeError. -/
theorem c4_name_resolver_witness :
    _import_class_by_fullname foo_world (some "labscript_devices.foo.FooTab")
      = Except.ok foo_tab_cls ∧
    _import_class_by_fullname foo_world (some "labscript_devices.bar.X")
      = Except.error (PyError.importError "labscript_devices.bar") ∧
    _import_class_by_fullname foo_world (some "labscript_devices.foo.Missing")
      = Except.error (PyError.attributeError "Missing") :=
  ⟨(c4_name_resolver foo_world "labscript_devices.foo.FooTab" (by decide)).2.2
     foo_module foo_tab_cls rfl rfl,
   (c4_name_resolver foo_world "labscript_devices.bar.X" (by decide)).1 rfl,
   (c4_name_resolver foo_world "labscript_devices.foo.Missing" (by decide)).2.1
     foo_module rfl rfl⟩

/-- C5: when the module `labscript_devices.<name>` imports successfully
(its decoration side effects running to completion) but no class was
registered under `name`, the decorator register lookup fails with the
ValueError of the source (the LookupFailure category of the spec) whose
message names the registry kind (`instancename`) and suggests the
decorator was forgotten; it does not succeed or return a class. -/
theorem c5_decorator_lookup_failure (w : World) (pick : PyModule → List PyClass)
    (r : ClassRegister) (name : String) (module : PyModule) (r' : ClassRegister)
    (hmod : dictGet w.modules ("labscript_devices." ++ name) = some module)
    (hrun : run_module_decorations w pick module r = Except.ok r')
    (hnone : dictGet r'.registered_classes name = none) :
    ClassRegister.getitem w pick r name
      = (Except.error (PyError.valueError
          ("No class decorated as a " ++ r.instancename
            ++ " found in module labscript_devices." ++ name
            ++ ", Did you forget to decorate the class definition with @"
            ++ r.instancename ++ "?")), r') := by
  simp [ClassRegister.getitem, hmod, hrun, hnone, no_class_msg]

/-- Witness for c5_decorator_lookup_failure: the module
`labscript_devices.EmptyDevice` loads fine but decorates nothing, so
the BLACS_tab register lookup raises the descriptive ValueError. -/
theorem c5_decorator_lookup_failure_witness :
    ClassRegister.getitem foo_world PyModule.tab_decorated
        initial_state.BLACS_tab_register "EmptyDevice"
      = (Except.error (PyError.valueError
          ("No class decorated as a " ++ "BLACS_tab"
            ++ " found in module labscript_devices." ++ "EmptyDevice"
            ++ ", Did you forget to decorate the class definition with @"
            ++ "BLACS_tab" ++ "?")), initial_state.BLACS_tab_register) :=
  c5_decorator_lookup_failure foo_world PyModule.tab_decorated
    initial_state.BLACS_tab_register "EmptyDevice" empty_module
    initial_state.BLACS_tab_register rfl rfl rfl

/-- C6: for a class defined in a normally imported module (the last
dotted component of its defining module is not `__main__`), the
decorator register stamps the class with that component as its device
name, stores the stamped class under that name, and returns it (the
input class, changed only by the stamp); the stored entry is then
retrievable under the device name. -/
theorem c6_decorator_register (w : World) (r : ClassRegister) (cls : PyClass)
    (h : module_device_name cls ≠ "__main__") :
    module_device_name cls = (py_split cls.module '.').getLastD "" ∧
    stamp cls (module_device_name cls)
      = { cls with labscript_device_class_name := some (module_device_name cls) } ∧
    ClassRegister.call w r cls
      = Except.ok (stamp cls (module_device_name cls),
          { r with registered_classes :=
                     (dictInsert r.registered_classes (module_device_name cls)
                       (stamp cls (module_device_name cls))) }) ∧
    dictGet (dictInsert r.registered_classes (module_device_name cls)
        (stamp cls (module_device_name cls))) (module_device_name cls)
      = some (stamp cls (module_device_name cls)) := by
  refine ⟨rfl, rfl, ?_, dictGet_insert_self _ _ _⟩
  simp [ClassRegister.call, h]

/-- Witness for c6_decorator_register: `FooTab` from module
`labscript_devices.foo` is stamped and stored under `foo` and returned
stamped. -/
theorem c6_decorator_register_witness :
    ClassRegister.call empty_world initial_state.BLACS_tab_register foo_tab_cls
      = Except.ok (stamp foo_tab_cls "foo",
          { registered_classes := [("foo", stamp foo_tab_cls "foo")]
            instancename := "BLACS_tab" }) ∧
    stamp foo_tab_cls "foo"
      = { foo_tab_cls with labscript_device_class_name := some "foo" } :=
  ⟨(c6_decorator_register empty_world initial_state.BLACS_tab_register foo_tab_cls
     (by decide)).2.2.1,
   (c6_decorator_register empty_world initial_state.BLACS_tab_register foo_tab_cls
     (by decide)).2.1⟩

/-- C7: a lookup invokes the directory walk exactly when its
corresponding deferred mapping is empty at the time of the call (the
ghost walk counter increments by one exactly then); a lookup on a
non-empty mapping leaves both deferred mappings unchanged, so once the
mappings are non-empty repeated lookups never walk again. -/
theorem c7_walk_exactly_when_empty (w : World) (st : RegState) (name : String) :
    ((get_BLACS_tab w st name).2.walk_count
       = if dictIsEmpty st.BLACS_tab_registry then st.walk_count + 1
         else st.walk_count) ∧
    ((get_runviewer_parser_class w st name).2.walk_count
       = if dictIsEmpty st.runviewer_parser_registry then st.walk_count + 1
         else st.walk_count) ∧
    (dictIsEmpty st.BLACS_tab_registry = false →
       (get_BLACS_tab w st name).2.BLACS_tab_registry = st.BLACS_tab_registry ∧
       (get_BLACS_tab w st name).2.runviewer_parser_registry
         = st.runviewer_parser_registry) ∧
    (dictIsEmpty st.runviewer_parser_registry = false →
       (get_runviewer_parser_class w st name).2.BLACS_tab_registry
         = st.BLACS_tab_registry ∧
       (get_runviewer_parser_class w st name).2.runviewer_parser_registry
         = st.runviewer_parser_registry) := by
  refine ⟨?_, ?_, fun hne => ?_, fun hne => ?_⟩
  · cases hemp : dictIsEmpty st.BLACS_tab_registry with
    | false =>
        cases hget : dictGet st.BLACS_tab_registry name <;>
          simp [get_BLACS_tab, hemp, hget]
    | true =>
        cases hget : dictGet (populate_registry w st).BLACS_tab_registry name <;>
          simp [get_BLACS_tab, hemp, hget, populate_registry_walk_count]
  · cases hemp : dictIsEmpty st.runviewer_parser_registry with
    | false =>
        cases hget : dictGet st.runviewer_parser_registry name <;>
          simp [get_runviewer_parser_class, hemp, hget]
    | true =>
        cases hget : dictGet (populate_registry w st).runviewer_parser_registry name <;>
          simp [get_runviewer_parser_class, hemp, hget, populate_registry_walk_count]
  · cases hget : dictGet st.BLACS_tab_registry name <;>
      simp [get_BLACS_tab, hne, hget]
  · cases hget : dictGet st.runviewer_parser_registry name <;>
      simp [get_runviewer_parser_class, hne, hget]

/-- Witness for c7_walk_exactly_when_empty: on the empty initial state a
lookup walks once; on a populated state no walk happens and the
mappings are untouched. -/
theorem c7_walk_exactly_when_empty_witness :
    (get_BLACS_tab empty_world initial_state "X").2.walk_count = 1 ∧
    (get_BLACS_tab empty_world foo_both_state "X").2.walk_count
      = foo_both_state.walk_count ∧
    (get_BLACS_tab empty_world foo_both_state "X").2.BLACS_tab_registry
      = foo_both_state.BLACS_tab_registry ∧
    (get_runviewer_parser_class empty_world foo_both_state "X").2.runviewer_parser_registry
      = foo_both_state.runviewer_parser_registry :=
  ⟨(c7_walk_exactly_when_empty empty_world initial_state "X").1,
   (c7_walk_exactly_when_empty empty_world foo_both_state "X").1,
   ((c7_walk_exactly_when_empty empty_world foo_both_state "X").2.2.1 rfl).1,
   ((c7_walk_exactly_when_empty empty_world foo_both_state "X").2.2.2 rfl).2⟩

/-- C8: registering a class whose defining module resolves to `__main__`:
with `__main__.__file__` unavailable the register raises the RuntimeError
of the source (the ConfigurationError category of the spec) saying the
environment cannot be handled; with a file available the device name is
the basename of that file without its extension. -/
theorem c8_main_module_case (w : World) (r : ClassRegister) (cls : PyClass)
    (h : module_device_name cls = "__main__") :
    (w.main_file = none →
       ClassRegister.call w r cls
         = Except.error (PyError.runtimeError main_file_err_msg)) ∧
    (∀ f, w.main_file = some f →
       ClassRegister.call w r cls
         = Except.ok (stamp cls (splitext_root (os_path_basename f)),
             { r with registered_classes :=
                        (dictInsert r.registered_classes
                          (splitext_root (os_path_basename f))
                          (stamp cls (splitext_root (os_path_basename f)))) })) := by
  constructor
  · intro hf
    simp [ClassRegister.call, h, hf]
  · intro f hf
    simp [ClassRegister.call, h, hf]

/-- Witness for c8_main_module_case: a class defined in `__main__` raises
the RuntimeError when no file exists, and is registered as `FooDevice`
when `__main__.__file__` is `/home/user/FooDevice.py`. -/
theorem c8_main_module_case_witness :
    ClassRegister.call empty_world initial_state.BLACS_tab_register main_cls
      = Except.error (PyError.runtimeError main_file_err_msg) ∧
    ClassRegister.call main_file_world initial_state.BLACS_tab_register main_cls
      = Except.ok (stamp main_cls "FooDevice",
          { registered_classes := [("FooDevice", stamp main_cls "FooDevice")]
            instancename := "BLACS_tab" }) :=
  ⟨(c8_main_module_case empty_world initial_state.BLACS_tab_register main_cls rfl).1 rfl,
   (c8_main_module_case main_file_world initial_state.BLACS_tab_register main_cls rfl).2
     "/home/user/FooDevice.py" rfl⟩

/-- C9: the deprecated decorators `labscript_device` and `BLACS_worker`
return exactly the input class, leave the global registries untouched,
and emit exactly one deprecation warning naming the decorator. -/
theorem c9_deprecated_decorators (st : RegState) (cls : PyClass) :
    labscript_device st cls
      = (cls, st, ["@labscript_device decorator is unnecessary and can be removed"]) ∧
    BLACS_worker st cls
      = (cls, st, ["@BLACS_worker decorator is unnecessary and can be removed"]) :=
  ⟨rfl, rfl⟩

/-- Helper for C10: every `register_classes` call writes both mappings at
the same key, so equality of key lists is preserved by any sequence of
calls. -/
theorem register_keys_invariant
    (calls : List (String × Option String × Option String)) (st : RegState)
    (h : dictKeys st.BLACS_tab_registry = dictKeys st.runviewer_parser_registry) :
    dictKeys (apply_register_calls calls st).BLACS_tab_registry
      = dictKeys (apply_register_calls calls st).runviewer_parser_registry := by
  induction calls generalizing st with
  | nil => exact h
  | cons c t ih =>
      apply ih
      show dictKeys (dictInsert st.BLACS_tab_registry c.1 c.2.1)
        = dictKeys (dictInsert st.runviewer_parser_registry c.1 c.2.2)
      rw [dictKeys_insert, dictKeys_insert, dictContains_eq_mem, dictContains_eq_mem, h]

/-- C10 (invariant): after any sequence of `register_classes` calls from
the initial empty state, the panel mapping and the parser mapping have
exactly the same key list, and in particular one is empty exactly when
the other is. -/
theorem c10_registry_key_sets
    (calls : List (String × Option String × Option String)) :
    dictKeys (apply_register_calls calls initial_state).BLACS_tab_registry
      = dictKeys (apply_register_calls calls initial_state).runviewer_parser_registry ∧
    dictIsEmpty (apply_register_calls calls initial_state).BLACS_tab_registry
      = dictIsEmpty (apply_register_calls calls initial_state).runviewer_parser_registry := by
  have h := register_keys_invariant calls initial_state rfl
  exact ⟨h, by rw [dictIsEmpty_eq_keys, dictIsEmpty_eq_keys, h]⟩

end LabscriptDevices
